import Mathlib

/-
Shallow embedding of the API client layer of the e-commerce storefront:
  - src/Frontend/EcommerceProject/src/api/apiClient.js  (class ApiClient)
  - src/Frontend/EcommerceProject/src/hooks/useAuth.js  (useAuth hook)

JavaScript values that flow through the client (response bodies, the
session token slot `this.token`, request bodies) are modelled by the
inductive type `Json`; `localStorage` and plain header objects are
association lists of strings.  The network is modelled by a
`FetchResult` parameter: either a network-level rejection of `fetch`
or an `HttpResponse` carrying status, statusText, content-type header
and the outcome of `response.json()`.
-/

namespace ECommerce

/-- A JavaScript/JSON value as it appears in the client code. `null`
also stands for JS `null` stored in `this.token`. -/
inductive Json where
  | null
  | bool (b : Bool)
  | num (n : Int)
  | str (s : String)
  | arr (elems : List Json)
  | obj (fields : List (String × Json))

/-- JS truthiness of a value, as used by `if (this.token)`,
`if (response.access_token)` and `data.detail || ...` in apiClient.js:
`null`/`false`/`0`/`""` are falsy, objects and arrays are truthy. -/
def Json.truthy : Json → Bool
  | .null => false
  | .bool b => b
  | .num n => n ≠ 0
  | .str s => s ≠ ""
  | .arr _ => true
  | .obj _ => true

mutual

/-- JS string coercion `String(v)`, as performed by the template literal
`` `Bearer ${this.token}` ``, by `new Error(data.detail)` and by
`localStorage.setItem("token", this.token)`. -/
def Json.jsToString : Json → String
  | .null => "null"
  | .bool b => if b then "true" else "false"
  | .num n => toString n
  | .str s => s
  | .arr es => Json.joinElems es
  | .obj _ => "[object Object]"

/-- Comma-join of array elements under JS string coercion. -/
def Json.joinElems : List Json → String
  | [] => ""
  | [e] => e.jsToString
  | e :: rest => e.jsToString ++ "," ++ Json.joinElems rest

end

/-- First-match lookup in the field list of a JS object (object keys are
unique, so first match is the match). -/
def lookupField : List (String × Json) → String → Option Json
  | [], _ => none
  | (k0, v) :: rest, k => if k0 = k then some v else lookupField rest k

/-- Message of the TypeError raised by a property read on a JS `null`
receiver, as produced by the runtime (the \x27 escapes are the single
quotes around the property name). -/
def nullReadMsg (field : String) : String :=
  "Cannot read properties of null (reading \x27" ++ field ++ "\x27)"

/-- JS property access `v.f`: on an object the field value, or
`undefined` (`none`) when the key is absent; on `null` a thrown
TypeError; on the remaining primitives and on arrays `undefined` (no
throw).  A JS `undefined` receiver cannot arise here, because
`response.json()` never yields `undefined`. -/
def Json.readField : Json → String → Except String (Option Json)
  | .null, k => .error (nullReadMsg k)
  | .obj fields, k => .ok (lookupField fields k)
  | _, _ => .ok none

/-- A JS object with string values: headers objects and `localStorage`. -/
abbrev StrMap := List (String × String)

/-- Lookup of a key: `localStorage.getItem` / reading a header field. -/
def getEntry : StrMap → String → Option String
  | [], _ => none
  | (k0, v) :: rest, k => if k0 = k then some v else getEntry rest k

/-- Overwriting property assignment: `config.headers.Authorization = ...`
and `localStorage.setItem` (keys are unique, the first hit is replaced). -/
def setEntry : StrMap → String → String → StrMap
  | [], k, v => [(k, v)]
  | (k0, v0) :: rest, k, v =>
    if k0 = k then (k, v) :: rest else (k0, v0) :: setEntry rest k v

/-- `localStorage.removeItem`. -/
def removeEntry (l : StrMap) (k : String) : StrMap :=
  l.filter (fun p => p.1 ≠ k)

/-- Whether `pat` occurs at the start of `cs`. -/
def charsBeginWith : List Char → List Char → Bool
  | [], _ => true
  | _ :: _, [] => false
  | p :: ps, c :: cs => p = c && charsBeginWith ps cs

/-- Whether `pat` occurs anywhere in `cs` (substring search). -/
def charsContain (pat : List Char) : List Char → Bool
  | [] => pat.isEmpty
  | c :: cs => charsBeginWith pat (c :: cs) || charsContain pat cs

/-- JS `String.prototype.includes`, as in
`contentType.includes("application/json")`: substring containment. -/
def strIncludes (s pat : String) : Bool :=
  charsContain pat.data s.data

/-- `response.ok` of the Fetch API: status in the range 200..299. -/
def statusOk (status : Nat) : Bool :=
  200 ≤ status && status ≤ 299

/-- The options bag passed to `ApiClient.request`.  The own
methods pass at most `method` and `body` (a JSON-stringified value,
kept here in structured form); `headers` is never passed inside this
repository but belongs to the generic contract. -/
structure Options where
  method : Option String := none
  body : Option Json := none
  headers : Option StrMap := none

/-- `request` called with the options bag defaulted to `{}`. -/
def emptyOptions : Options := {}

/-- The `config` object handed to `fetch(url, config)`. -/
structure Config where
  method : Option String
  body : Option Json
  headers : StrMap

/-- Construction of `config` in `ApiClient.request` (apiClient.js
lines 13-24).  The source builds
`{ headers: \x7b "Content-Type": "application/json", ...options.headers \x7d, ...options }`:
the trailing `...options` spread is evaluated after the `headers:`
property, so whenever `options.headers` is present it overwrites the
merged object and the effective headers are exactly the map of the caller;
only when the caller passes no headers does the default JSON
content-type header survive.  Afterwards, if `this.token` is truthy,
`config.headers.Authorization = `Bearer ${this.token}`` is assigned. -/
def buildConfig (token : Json) (opts : Options) : Config :=
  let merged : StrMap :=
    match opts.headers with
    | some hs => hs
    | none => [("Content-Type", "application/json")]
  let withAuth : StrMap :=
    if token.truthy then
      setEntry merged "Authorization" ("Bearer " ++ token.jsToString)
    else merged
  { method := opts.method, body := opts.body, headers := withAuth }

/-- The response object produced by a completed `fetch`: status,
statusText, the content-type response header, and the outcome of
`response.json()` (`Except.error` carries the parse-error
message when the body is not valid JSON). -/
structure HttpResponse where
  status : Nat
  statusText : String
  contentType : Option String
  body : Except String Json

/-- The outcome of the `fetch` call: a network-level rejection with an
error message, or a response. -/
inductive FetchResult where
  | networkError (msg : String)
  | response (r : HttpResponse)

/-- The non-JSON check of apiClient.js lines 30-31:
`!contentType || !contentType.includes("application/json")`. -/
def isJsonContentType : Option String → Bool
  | none => false
  | some ct => strIncludes ct "application/json"

/-- `ApiClient.request` (apiClient.js lines 10-46), as a function of the
current token, the options bag and the fetch outcome.  The catch block
only logs and rethrows, so every failure path is a single propagated
error.  The outgoing request itself is `buildConfig token opts`. -/
def request (token : Json) (opts : Options) (result : FetchResult) :
    Except String Json :=
  match result with
  | .networkError msg => .error msg
  | .response r =>
    if isJsonContentType r.contentType then
      match r.body with
      | .error parseMsg => .error parseMsg
      | .ok data =>
        if statusOk r.status then
          .ok data
        else
          match data.readField "detail" with
          | .error e => .error e
          | .ok (some d) =>
            if d.truthy then .error d.jsToString
            else .error ("HTTP error! status: " ++ toString r.status)
          | .ok none => .error ("HTTP error! status: " ++ toString r.status)
    else
      .error ("Server returned " ++ toString r.status ++ ": " ++ r.statusText)

/-- The mutable state of the `ApiClient` singleton: the in-memory token
slot `this.token` (a JS value: a string, or `null`) together with the
`localStorage` of the browser. -/
structure ClientState where
  token : Json
  storage : StrMap

/-- The `ApiClient` constructor (apiClient.js lines 5-7):
`this.token = localStorage.getItem("token")`, which yields the stored
string or JS `null`. -/
def mkClient (storage : StrMap) : ClientState :=
  { token :=
      match getEntry storage "token" with
      | some s => .str s
      | none => .null
    storage := storage }

/-- `JSON.stringify` of an object literal some of whose values may be
`undefined` (absent): such keys are dropped.  The body is kept in
structured form. -/
def stringifyBody (fields : List (String × Option Json)) : Json :=
  .obj (fields.filterMap fun p => p.2.map fun v => (p.1, v))

/-- The options bag built by `ApiClient.login` (apiClient.js lines
50-53): POST with body `JSON.stringify({ username, password })`. -/
def loginOptions (username password : Option Json) : Options :=
  { method := some "POST"
    body := some (stringifyBody [("username", username), ("password", password)])
    headers := none }

/-- The options bag built by `ApiClient.register` (apiClient.js lines
64-67): POST with body `JSON.stringify(userData)`. -/
def registerOptions (userData : Json) : Options :=
  { method := some "POST", body := some userData, headers := none }

/-- `ApiClient.login` (apiClient.js lines 49-61): performs the request;
on a thrown error the state is untouched and the error propagates; on a
returned body, if `response.access_token` is truthy it is stored into
`this.token` and (string-coerced) into `localStorage`, and the raw body
is returned either way. -/
def clientLogin (st : ClientState) (username password : Option Json)
    (result : FetchResult) : Except String Json × ClientState :=
  match request st.token (loginOptions username password) result with
  | .error e => (.error e, st)
  | .ok response =>
    match response.readField "access_token" with
    | .error e => (.error e, st)
    | .ok (some tok) =>
      if tok.truthy then
        (.ok response,
         { token := tok, storage := setEntry st.storage "token" tok.jsToString })
      else (.ok response, st)
    | .ok none => (.ok response, st)

/-- `ApiClient.register` (apiClient.js lines 63-69): a plain request;
the client state is not touched. -/
def clientRegister (st : ClientState) (userData : Json)
    (result : FetchResult) : Except String Json × ClientState :=
  (request st.token (registerOptions userData) result, st)

/-- `ApiClient.getCurrentUser` (apiClient.js lines 71-73): a GET with
the defaulted empty options bag. -/
def clientGetCurrentUser (st : ClientState) (result : FetchResult) :
    Except String Json :=
  request st.token emptyOptions result

/-- `ApiClient.logout` (apiClient.js lines 75-78):
`this.token = null; localStorage.removeItem("token")`.  It takes no
`FetchResult`: no network call is involved. -/
def clientLogout (st : ClientState) : ClientState :=
  { token := .null, storage := removeEntry st.storage "token" }

/-- The view state held by the `useAuth` hook: `user`, `loading`,
`error`. -/
structure HookState where
  user : Option Json
  loading : Bool
  error : Option String

/-- The initial `useState` values of `useAuth` (useAuth.js lines
31-33). -/
def initialHookState : HookState :=
  { user := none, loading := true, error := none }

/-- The module binding `apiClient` as useAuth.js actually receives it.
apiClient.js ends with `export default ApiClient;` — the class itself;
no `new ApiClient()` exists anywhere in the sources — so the binding is
the class object: the instance methods (request, login, register,
getCurrentUser, logout) live on the prototype and are absent from it.
The only mutable state reachable through it is a `token` property that
the mount effect assigns onto the class object, plus the browser
storage. -/
structure ClassBinding where
  tokenProp : Option String
  storage : StrMap

/-- Message of the TypeError raised by calling an undefined property,
as for `apiClient.getCurrentUser()` on the exported class. -/
def notFnMsg (methodName : String) : String :=
  "apiClient." ++ methodName ++ " is not a function"

/-- `getCurrentUser` of the hook (useAuth.js lines 45-55) against the
staged export: `apiClient.getCurrentUser` is undefined on the class, so
the awaited call throws a TypeError which the catch receives; the catch
logs it and calls `apiClient.logout()`, which is also undefined and
throws a second TypeError out of the catch; the finally still clears
`loading`.  No request is sent, `user` and `error` are never set, the
storage is never touched — no logout happens — and the second TypeError
escapes to the caller. -/
def hookGetCurrentUser (hs : HookState) (cb : ClassBinding) :
    Except String Unit × HookState × ClassBinding :=
  (.error (notFnMsg "logout"), { hs with loading := false }, cb)

/-- The mount effect of `useAuth` (useAuth.js lines 35-43): read the
stored token; if truthy, assign `apiClient.token = token` — a plain
property on the class object — and run `getCurrentUser()` without
awaiting it, so its escaping TypeError becomes an unhandled rejection;
otherwise just clear `loading`. -/
def restoreSession (hs : HookState) (cb : ClassBinding) :
    Except String Unit × HookState × ClassBinding :=
  match getEntry cb.storage "token" with
  | some t =>
    if t ≠ "" then
      hookGetCurrentUser hs { cb with tokenProp := some t }
    else (.ok (), { hs with loading := false }, cb)
  | none => (.ok (), { hs with loading := false }, cb)

/-- `login` of the hook (useAuth.js lines 57-67) against the staged
export: `setError(null)`, then `await apiClient.login(...)` throws —
`login` is undefined on the class — and the catch records the message
and rethrows.  The username and password arguments are evaluated but
never used; no request is sent and the binding is unchanged. -/
def hookLogin (hs : HookState) (cb : ClassBinding)
    (username password : Option Json) :
    Except String Unit × HookState × ClassBinding :=
  (.error (notFnMsg "login"),
   { hs with error := some (notFnMsg "login") }, cb)

/-- `register` of the hook (useAuth.js lines 69-80) against the staged
export: `setError(null)`, then `await apiClient.register(userData)`
throws — `register` is undefined on the class — before
`userData.username` is ever read; the catch records the message and
rethrows.  The auto-login on line 74 is never reached and the binding
is unchanged. -/
def hookRegister (hs : HookState) (cb : ClassBinding) (userData : Json) :
    Except String Unit × HookState × ClassBinding :=
  (.error (notFnMsg "register"),
   { hs with error := some (notFnMsg "register") }, cb)

/-- Bridge between the claims (a session credential that is either held
or absent) and the JS token slot: a held credential is the string, an
absent one is `null`. -/
def credToken : Option String → Json
  | some s => .str s
  | none => .null

theorem getEntry_setEntry_self (l : StrMap) (k v : String) :
    getEntry (setEntry l k v) k = some v := by
  induction l with
  | nil => simp [setEntry, getEntry]
  | cons hd rest ih =>
    obtain ⟨k0, v0⟩ := hd
    by_cases h : k0 = k
    · simp [setEntry, getEntry, h]
    · simp [setEntry, getEntry, h, ih]

theorem getEntry_removeEntry_self (l : StrMap) (k : String) :
    getEntry (removeEntry l k) k = none := by
  induction l with
  | nil => rfl
  | cons hd rest ih =>
    obtain ⟨k0, v0⟩ := hd
    by_cases h : k0 = k
    · simpa [removeEntry, h] using ih
    · simpa [removeEntry, getEntry, h] using ih

theorem getEntry_removeEntry_other (l : StrMap) (k k0 : String) (h : k0 ≠ k) :
    getEntry (removeEntry l k) k0 = getEntry l k0 := by
  induction l with
  | nil => rfl
  | cons hd rest ih =>
    obtain ⟨k1, v1⟩ := hd
    by_cases h1 : k1 = k
    · subst h1
      have hne : k1 ≠ k0 := fun hc => h hc.symm
      simp [removeEntry, getEntry, hne]
      simpa [removeEntry] using ih
    · by_cases h2 : k1 = k0
      · subst h2
        simp [removeEntry, getEntry, h1]
      · simp [removeEntry, getEntry, h1, h2]
        simpa [removeEntry] using ih

/-- With a truthy token, the assignment
`config.headers.Authorization = ...` puts the bearer header on the
outgoing config, whatever the options bag was. -/
theorem buildConfig_auth_of_truthy (token : Json) (opts : Options)
    (htruthy : token.truthy = true) :
    getEntry (buildConfig token opts).headers "Authorization" =
      some ("Bearer " ++ token.jsToString) := by
  cases hh : opts.headers with
  | none => simp [buildConfig, hh, htruthy, getEntry_setEntry_self]
  | some hs => simp [buildConfig, hh, htruthy, getEntry_setEntry_self]

/-- With a falsy token, the client adds no Authorization header: the
outgoing config carries one only if the caller-supplied headers already
did. -/
theorem buildConfig_auth_of_falsy (token : Json) (opts : Options)
    (hfalsy : token.truthy = false)
    (hnoauth : ∀ hs, opts.headers = some hs → getEntry hs "Authorization" = none) :
    getEntry (buildConfig token opts).headers "Authorization" = none := by
  cases hh : opts.headers with
  | none =>
    simp only [buildConfig, hh, hfalsy, Bool.false_eq_true, if_false]
    rfl
  | some hs =>
    simp only [buildConfig, hh, hfalsy, Bool.false_eq_true, if_false]
    exact hnoauth hs hh

/-- `ApiClient.login` on a success-status JSON response whose body holds
a non-empty string `access_token`: the token is stored in memory and in
storage and the raw body is returned. -/
theorem clientLogin_stores (st : ClientState) (username password : Option Json)
    (r : HttpResponse) (data : Json) (t : String)
    (hct : isJsonContentType r.contentType = true)
    (hbody : r.body = Except.ok data)
    (hok : statusOk r.status = true)
    (htok : data.readField "access_token" = .ok (some (.str t)))
    (ht : t ≠ "") :
    clientLogin st username password (.response r) =
      (.ok data, { token := .str t, storage := setEntry st.storage "token" t }) := by
  simp [clientLogin, request, hct, hbody, hok, htok, Json.truthy, ht, Json.jsToString]

/-- C4: whenever the content type of the response is absent or does not
contain "application/json", the request operation raises an error whose
message carries the HTTP status and status text, regardless of the body
and of whether the status is a success. -/
theorem C4_non_json_raises (token : Json) (opts : Options) (r : HttpResponse)
    (h : isJsonContentType r.contentType = false) :
    request token opts (.response r) =
      .error ("Server returned " ++ toString r.status ++ ": " ++ r.statusText) := by
  simp [request, h]

/-- Witness for C4: an HTML 500 response raises the status-bearing
message even though the body would not parse, and a 200 response with a
missing content type raises it too. -/
theorem C4_witness :
    request Json.null emptyOptions
        (.response { status := 500, statusText := "Internal Server Error",
                     contentType := some "text/html",
                     body := .error "SyntaxError" }) =
      .error "Server returned 500: Internal Server Error" ∧
    request Json.null emptyOptions
        (.response { status := 200, statusText := "OK",
                     contentType := none, body := .ok (.obj []) }) =
      .error "Server returned 200: OK" := by
  constructor
  · exact C4_non_json_raises Json.null emptyOptions _ (by rfl)
  · exact C4_non_json_raises Json.null emptyOptions _ (by rfl)

/-- C5: the claim says the outgoing headers are the merge of the default
JSON content-type header with the caller-supplied headers.  In the
source the trailing `...options` spread overwrites the merged `headers`
property, so with caller-supplied headers the default content type is
dropped: the outgoing headers are exactly the caller map.  This theorem
evaluates the embedded header construction at the failing input. -/
theorem C5_headers_clobbered :
    (buildConfig Json.null
        { method := some "POST", body := none,
          headers := some [("X-Custom", "1")] }).headers = [("X-Custom", "1")] ∧
    getEntry (buildConfig Json.null
        { method := some "POST", body := none,
          headers := some [("X-Custom", "1")] }).headers "Content-Type" = none ∧
    getEntry (buildConfig Json.null emptyOptions).headers "Content-Type" =
      some "application/json" := by
  exact ⟨rfl, rfl, rfl⟩

/-- C7: `ApiClient.register` returns exactly the outcome of the generic
request and leaves the client state — in-memory token and persisted
storage — untouched, on success and on failure alike. -/
theorem C7_register_preserves_session (st : ClientState) (userData : Json)
    (result : FetchResult) :
    (clientRegister st userData result).1 =
      request st.token (registerOptions userData) result ∧
    (clientRegister st userData result).2.token = st.token ∧
    (clientRegister st userData result).2.storage = st.storage := by
  exact ⟨rfl, rfl, rfl⟩

/-- Counterexample to C2 as stated: with no credential held (token is
JS null) but a caller-supplied Authorization header in the options bag,
the outgoing request does carry an Authorization header, against the
only-if direction of the claim. -/
theorem C2_counterexample :
    getEntry (buildConfig (credToken none)
        { method := none, body := none,
          headers := some [("Authorization", "Bearer rogue")] }).headers
      "Authorization" = some "Bearer rogue" := by
  rfl

/-- C2 (amended): provided the caller-supplied headers do not themselves
contain an Authorization entry, the outgoing request carries
`Authorization: Bearer <credential>` if and only if a non-empty
credential is held: a held non-empty credential is attached as a bearer
header on every call, and with no credential or an empty-string
credential no Authorization header is present; in particular a
credential found in storage at client construction is attached on the
next call. -/
theorem C2_auth_header_iff (cred : Option String) (opts : Options)
    (hnoauth : ∀ hs, opts.headers = some hs →
      getEntry hs "Authorization" = none) :
    (∀ t, cred = some t → t ≠ "" →
      getEntry (buildConfig (credToken cred) opts).headers "Authorization" =
        some ("Bearer " ++ t)) ∧
    (cred = none ∨ cred = some "" →
      getEntry (buildConfig (credToken cred) opts).headers "Authorization" =
        none) ∧
    (∀ storage t, getEntry storage "token" = some t → t ≠ "" →
      getEntry (buildConfig (mkClient storage).token opts).headers
        "Authorization" = some ("Bearer " ++ t)) := by
  refine ⟨?_, ?_, ?_⟩
  · intro t hc ht
    subst hc
    have := buildConfig_auth_of_truthy (.str t) opts (by simp [Json.truthy, ht])
    simpa [Json.jsToString] using this
  · intro hc
    cases hc with
    | inl hn =>
      subst hn
      exact buildConfig_auth_of_falsy _ opts (by rfl) hnoauth
    | inr he =>
      subst he
      exact buildConfig_auth_of_falsy _ opts (by simp [credToken, Json.truthy]) hnoauth
  · intro storage t hst ht
    have htok : (mkClient storage).token = .str t := by
      simp [mkClient, hst]
    rw [htok]
    have := buildConfig_auth_of_truthy (.str t) opts (by simp [Json.truthy, ht])
    simpa [Json.jsToString] using this

/-- Witness for C2: with the credential "t1" the bearer header is
attached on a plain call; with no credential and with the empty-string
credential it is absent; and a client constructed over a storage
holding "t1" attaches it. -/
theorem C2_witness :
    getEntry (buildConfig (credToken (some "t1")) emptyOptions).headers
      "Authorization" = some "Bearer t1" ∧
    getEntry (buildConfig (credToken none) emptyOptions).headers
      "Authorization" = none ∧
    getEntry (buildConfig (credToken (some "")) emptyOptions).headers
      "Authorization" = none ∧
    getEntry (buildConfig (mkClient [("token", "t1")]).token
      emptyOptions).headers "Authorization" = some "Bearer t1" := by
  have hno : ∀ hs, emptyOptions.headers = some hs →
      getEntry hs "Authorization" = none := by
    intro hs h
    exact Option.noConfusion h
  refine ⟨?_, ?_, ?_, ?_⟩
  · exact (C2_auth_header_iff (some "t1") emptyOptions hno).1 "t1" rfl (by decide)
  · exact (C2_auth_header_iff none emptyOptions hno).2.1 (Or.inl rfl)
  · exact (C2_auth_header_iff (some "") emptyOptions hno).2.1 (Or.inr rfl)
  · exact (C2_auth_header_iff none emptyOptions hno).2.2 [("token", "t1")] "t1"
      rfl (by decide)

/-- C3: a login whose response has a success status and a JSON body
holding a non-empty access token stores that token as the session
credential both in memory and in persistent storage, returns the raw
response body, and every subsequent call carries the header
`Authorization: Bearer <that token>`. -/
theorem C3_login_stores_token (st : ClientState) (username password : Option Json)
    (r : HttpResponse) (data : Json) (t : String)
    (hct : isJsonContentType r.contentType = true)
    (hbody : r.body = Except.ok data)
    (hok : statusOk r.status = true)
    (htok : data.readField "access_token" = .ok (some (.str t)))
    (ht : t ≠ "") :
    ∃ st1 : ClientState,
      clientLogin st username password (.response r) = (.ok data, st1) ∧
      st1.token = .str t ∧
      getEntry st1.storage "token" = some t ∧
      ∀ opts : Options,
        getEntry (buildConfig st1.token opts).headers "Authorization" =
          some ("Bearer " ++ t) := by
  refine ⟨{ token := .str t, storage := setEntry st.storage "token" t },
    clientLogin_stores st username password r data t hct hbody hok htok ht,
    rfl, getEntry_setEntry_self _ _ _, ?_⟩
  intro opts
  have h := buildConfig_auth_of_truthy (.str t) opts (by simp [Json.truthy, ht])
  simpa [Json.jsToString] using h

/-- Witness for C3: the example of the spec — login "alice"/"pw123"
against a mock returning status 200 with body containing
access_token "t1" ends with internal credential "t1", stored
credential "t1", and a subsequent plain call (the empty options bag of
getProducts) carrying Authorization: Bearer t1. -/
theorem C3_witness :
    (clientLogin { token := Json.null, storage := [] }
        (some (.str "alice")) (some (.str "pw123"))
        (.response { status := 200, statusText := "OK",
                     contentType := some "application/json",
                     body := .ok (.obj [("access_token", .str "t1")]) })).2.token =
      .str "t1" ∧
    getEntry (clientLogin { token := Json.null, storage := [] }
        (some (.str "alice")) (some (.str "pw123"))
        (.response { status := 200, statusText := "OK",
                     contentType := some "application/json",
                     body := .ok (.obj [("access_token", .str "t1")]) })).2.storage
      "token" = some "t1" ∧
    getEntry (buildConfig (clientLogin { token := Json.null, storage := [] }
        (some (.str "alice")) (some (.str "pw123"))
        (.response { status := 200, statusText := "OK",
                     contentType := some "application/json",
                     body := .ok (.obj [("access_token", .str "t1")]) })).2.token
      emptyOptions).headers "Authorization" = some "Bearer t1" := by
  obtain ⟨st1, heq, htk, hst, hdr⟩ :=
    C3_login_stores_token { token := Json.null, storage := [] }
      (some (.str "alice")) (some (.str "pw123"))
      { status := 200, statusText := "OK",
        contentType := some "application/json",
        body := .ok (.obj [("access_token", .str "t1")]) }
      (.obj [("access_token", .str "t1")]) "t1"
      (by rfl) (by rfl) (by rfl) (by rfl) (by decide)
  rw [heq]
  exact ⟨htk, hst, hdr emptyOptions⟩

/-- C6: logout nulls the in-memory token and removes the persisted
token; the function consumes no fetch outcome, so no network call is
involved; every other persisted key is untouched; and a following call
whose caller-supplied headers do not themselves carry an Authorization
entry goes out without an Authorization header. -/
theorem C6_logout_clears_session (st : ClientState) :
    (clientLogout st).token = Json.null ∧
    getEntry (clientLogout st).storage "token" = none ∧
    (∀ k, k ≠ "token" →
      getEntry (clientLogout st).storage k = getEntry st.storage k) ∧
    (∀ opts : Options,
      (∀ hs, opts.headers = some hs → getEntry hs "Authorization" = none) →
      getEntry (buildConfig (clientLogout st).token opts).headers
        "Authorization" = none) := by
  refine ⟨rfl, getEntry_removeEntry_self _ _, ?_, ?_⟩
  · intro k hk
    exact getEntry_removeEntry_other _ _ _ hk
  · intro opts hnoauth
    exact buildConfig_auth_of_falsy _ opts rfl hnoauth

/-- Witness for C6: logging out of a client holding token "t1" (with an
unrelated "theme" key persisted) nulls the token, removes only the
"token" key, and the next plain call carries no Authorization header. -/
theorem C6_witness :
    (clientLogout { token := Json.str "t1", storage := [("token", "t1"), ("theme", "dark")] }).token = Json.null ∧
    getEntry (clientLogout { token := Json.str "t1", storage := [("token", "t1"), ("theme", "dark")] }).storage "token" =
      none ∧
    getEntry (clientLogout { token := Json.str "t1", storage := [("token", "t1"), ("theme", "dark")] }).storage "theme" =
      some "dark" ∧
    getEntry (buildConfig (clientLogout { token := Json.str "t1", storage := [("token", "t1"), ("theme", "dark")] }).token
      emptyOptions).headers "Authorization" = none := by
  have h := C6_logout_clears_session
    { token := Json.str "t1", storage := [("token", "t1"), ("theme", "dark")] }
  refine ⟨h.1, h.2.1, ?_, ?_⟩
  · exact (h.2.2.1 "theme" (by decide)).trans rfl
  · exact h.2.2.2 emptyOptions (fun hs hh => Option.noConfusion hh)

/-- C8: the claim says a failed current-user lookup during session
restoration destroys the in-memory and persisted credential and
reaches an anonymous state without surfacing an error.  In the staged
sources the default export of apiClient.js is the class, never
instantiated, so the lookup always throws a TypeError
(apiClient.getCurrentUser is not a function) and the logout call in
the catch throws another (apiClient.logout is not a function): the
persisted credential survives restoration and the second TypeError
escapes unhandled.  This theorem evaluates the staged hook: restoration
never modifies the storage at all, and at the failing input (stored
token "old") the stored token remains, no user is set, loading ends
false, and the escaping error is the logout TypeError. -/
theorem C8_staged_restore_no_logout :
    (∀ (hs : HookState) (cb : ClassBinding),
      (restoreSession hs cb).2.2.storage = cb.storage) ∧
    (restoreSession initialHookState
        { tokenProp := none, storage := [("token", "old")] }).1 =
      .error (notFnMsg "logout") ∧
    getEntry (restoreSession initialHookState
        { tokenProp := none, storage := [("token", "old")] }).2.2.storage
      "token" = some "old" ∧
    (restoreSession initialHookState
        { tokenProp := none, storage := [("token", "old")] }).2.1.user =
      none ∧
    (restoreSession initialHookState
        { tokenProp := none, storage := [("token", "old")] }).2.1.loading =
      false := by
  refine ⟨?_, rfl, rfl, rfl, rfl⟩
  intro hs cb
  cases h : getEntry cb.storage "token" with
  | none => simp [restoreSession, h]
  | some t =>
    by_cases ht : t = ""
    · simp [restoreSession, h, ht]
    · simp [restoreSession, h, ht, hookGetCurrentUser]

/-- Counterexample to C9 as stated: a success-status (200) JSON
response whose body is literally null lacks a truthy access_token
field, yet the client does not return normally: evaluating
`response.access_token` on the null body throws a TypeError.  The
session state is nevertheless unchanged. -/
theorem C9_counterexample :
    clientLogin { token := Json.str "t0", storage := [("token", "t0")] }
        (some (.str "alice")) (some (.str "pw"))
        (.response { status := 200, statusText := "OK",
                     contentType := some "application/json",
                     body := .ok Json.null }) =
      (.error (nullReadMsg "access_token"),
       { token := Json.str "t0", storage := [("token", "t0")] }) ∧
    statusOk 200 = true := by
  exact ⟨rfl, rfl⟩

/-- C9 (amended): a login answered with a success-status JSON body that
is not null and has no truthy access_token field raises no error,
returns the body, and leaves the client state — in-memory and persisted
credential — exactly as it was, so any old session silently persists;
when the success-status body is null, the access-token check itself
throws a TypeError and the state is likewise unchanged. -/
theorem C9_login_without_token_keeps_session (st : ClientState)
    (username password : Option Json) (result : FetchResult) (data : Json)
    (hreq : request st.token (loginOptions username password) result = .ok data) :
    (data ≠ .null →
      (∀ d, data.readField "access_token" = .ok (some d) → d.truthy = false) →
      clientLogin st username password result = (.ok data, st)) ∧
    (data = .null →
      clientLogin st username password result =
        (.error (nullReadMsg "access_token"), st)) := by
  constructor
  · intro hnn hfalsy
    cases hd : data.readField "access_token" with
    | error e =>
      cases data with
      | null => exact absurd rfl hnn
      | bool b => exact Except.noConfusion hd
      | num n => exact Except.noConfusion hd
      | str s => exact Except.noConfusion hd
      | arr es => exact Except.noConfusion hd
      | obj fields => exact Except.noConfusion hd
    | ok o =>
      cases o with
      | none => simp [clientLogin, hreq, hd]
      | some d =>
        have hf := hfalsy d hd
        simp [clientLogin, hreq, hd, hf]
  · intro hnull
    subst hnull
    simp [clientLogin, hreq, Json.readField]

/-- Witness for C9: a 200 login response whose body is an object with
no access_token returns the body and keeps both the old in-memory
token "t0" and the old stored token. -/
theorem C9_witness :
    clientLogin { token := Json.str "t0", storage := [("token", "t0")] }
        (some (.str "alice")) (some (.str "pw"))
        (.response { status := 200, statusText := "OK",
                     contentType := some "application/json",
                     body := .ok (.obj [("message", .str "ok")]) }) =
      (.ok (.obj [("message", .str "ok")]),
       { token := Json.str "t0", storage := [("token", "t0")] }) := by
  exact (C9_login_without_token_keeps_session
    { token := Json.str "t0", storage := [("token", "t0")] }
    (some (.str "alice")) (some (.str "pw"))
    (.response { status := 200, statusText := "OK",
                 contentType := some "application/json",
                 body := .ok (.obj [("message", .str "ok")]) })
    (.obj [("message", .str "ok")])
    (by rfl)).1 (fun h => Json.noConfusion h)
    (fun d hd => Option.noConfusion (Except.ok.inj hd))

/-- C10: the claim says a successful hook-level register is immediately
followed by a login with userData.username and userData.password, so
that registration through the hook establishes a session, and a failed
follow-up login is rethrown.  In the staged sources
`apiClient.register` is undefined on the exported class, so every hook
register call rejects with a TypeError before any request is sent: no
register ever succeeds, the auto-login is never reached, and the
binding (hence any session state) is unchanged; the hook login call is
equally broken.  This theorem evaluates the staged hook in general and
at the failing input. -/
theorem C10_staged_register_throws :
    (∀ (hs : HookState) (cb : ClassBinding) (userData : Json),
      hookRegister hs cb userData =
        (.error (notFnMsg "register"),
         { hs with error := some (notFnMsg "register") }, cb)) ∧
    (hookRegister initialHookState { tokenProp := none, storage := [] }
        (.obj [("username", .str "bob"), ("password", .str "pw")])).1 =
      .error "apiClient.register is not a function" ∧
    (∀ (hs : HookState) (cb : ClassBinding) (username password : Option Json),
      (hookLogin hs cb username password).1 = .error (notFnMsg "login")) := by
  exact ⟨fun hs cb userData => rfl, rfl, fun hs cb username password => rfl⟩

end ECommerce
